import Mathlib

/-!
Verification development for the Blog2Visuals credit / payment core.

The definitions below are a shallow embedding of the repository's
credit-and-payment code:

* `verifyPayment`   — the payment-verification route handler
  (src/unnamed/part_001, `POST`), which validates a Razorpay callback,
  checks the `payments` table for duplicates and replays, verifies the
  HMAC signature and, on first valid sight, credits the `profiles`
  ledger and inserts a payment row.
* `deductCredit` / `threadStep` — the credit-debit route handler
  (src/unnamed/part_002, `POST`): a pre-read balance check followed by a
  conditional update (`UPDATE profiles SET credits = r - 1 WHERE id = ?
  AND credits > 0`, the handler's fallback path).  `threadStep` exposes
  the handler's two database accesses as separate atomic steps so that
  interleavings of two concurrent requests can be examined.
* `computeEntitlement` — the client-side entitlement computation
  (src/app/page.tsx, lines 156–172).
* `orderAmount` / `orderCreditsNote` — the fixed price table of the
  order-creation route (src/app/api/create-order/route.ts).
* `Component` / `mutatesCredits` / `componentCallSites` — a static model
  of every code site in src/ that writes a `credits` column or inserts
  into the `payments` table, taken from an exhaustive search of the
  sources.

Database tables are modelled as association lists, the provider's
HMAC-SHA256 as an opaque function parameter `hmac : String → String →
String` (the handlers only ever compare its output for equality), and
JavaScript falsiness of the request's string fields as emptiness.
-/

namespace B2V

/-- Status column of a `payments` row; the verify route only ever inserts
`success` or `signature_failed` (src/unnamed/part_001, lines 167 and 233). -/
inductive PayStatus
  | success
  | signatureFailed
  deriving DecidableEq, Repr

/-- One row of the `payments` table, as inserted by the verify route:
`user_id, razorpay_order_id, razorpay_payment_id, amount, credits_added,
status` (src/unnamed/part_001, lines 161–168 and 225–234). -/
structure PaymentRow where
  userId : String
  orderId : String
  paymentId : String
  amount : Int
  creditsAdded : Int
  status : PayStatus
  deriving DecidableEq, Repr

/-- Combined database state: the `payments` table and the `profiles` ledger. -/
structure DB where
  payments : List PaymentRow
  profiles : List (String × Int)
  deriving DecidableEq, Repr

/-- Read of `profiles.credits` by id, `.eq("id", uid).single()`:
`none` models the PGRST116 "no rows" error. -/
def lookupCredits (profiles : List (String × Int)) (uid : String) : Option Int :=
  (profiles.find? (fun p => p.fst == uid)).map (fun p => p.snd)

/-- Unconditional `UPDATE profiles SET credits = v WHERE id = uid`
(src/unnamed/part_001, lines 208–211). -/
def setCredits (profiles : List (String × Int)) (uid : String) (v : Int) :
    List (String × Int) :=
  profiles.map (fun p => if p.fst == uid then (p.fst, v) else p)

/-- Conditional `UPDATE profiles SET credits = v WHERE id = uid AND credits > 0`
(src/unnamed/part_002, lines 95–99); matching no row is not an error. -/
def condSetCredits (profiles : List (String × Int)) (uid : String) (v : Int) :
    List (String × Int) :=
  profiles.map (fun p => if p.fst == uid && p.snd > 0 then (p.fst, v) else p)

/-- Lookup of a `payments` row by `razorpay_payment_id`
(src/unnamed/part_001, lines 84–88): any status counts. -/
def findByPaymentId (l : List PaymentRow) (pid : String) : Option PaymentRow :=
  l.find? (fun r => r.paymentId == pid)

/-- Lookup of a `payments` row by `razorpay_order_id` restricted to
`status = "success"` (src/unnamed/part_001, lines 119–124). -/
def findSuccessByOrderId (l : List PaymentRow) (oid : String) : Option PaymentRow :=
  l.find? (fun r => r.orderId == oid && r.status == PayStatus.success)

/-- Constant `CREDITS_TO_ADD` of the verify route (src/unnamed/part_001, line 13). -/
def CREDITS_TO_ADD : Int := 10

/-- Constant `AMOUNT_IN_PAISE` of the verify route (src/unnamed/part_001, line 14). -/
def AMOUNT_IN_PAISE : Int := 19900

/-- Body of a verification request; `userId = none` models a missing or
falsy `user_id` field. -/
structure VerifyRequest where
  orderId : String
  paymentId : String
  signature : String
  userId : Option String
  deriving DecidableEq, Repr

/-- Possible responses of the verify route, keyed by the `code` field of
the JSON it returns.  `alreadyVerified` carries `credits_added` (always 0
at the return site, line 109) and `total_credits`; `verified` carries
`credits_added` and `total_credits` of the fresh grant. -/
inductive VerifyResponse
  | missingDetails
  | userMismatch
  | configError
  | alreadyVerified (creditsAdded : Int) (totalCredits : Int)
  | replayAttack
  | invalidSignature
  | profileError
  | verified (creditsAdded : Int) (totalCredits : Int)
  deriving DecidableEq, Repr

/-- The verify-payment route handler (src/unnamed/part_001, `POST`),
run to completion as one sequential execution.

`hmac key msg` stands for `crypto.createHmac("sha256", key).update(msg).digest("hex")`;
the handler only compares its output for equality (the timing-safe
comparison of line 150 decides exactly string equality for equal-length
hex strings).  `secret = none` models an unset `RAZORPAY_KEY_SECRET`.
`sessionUser` is the subject of a successfully validated bearer token,
`none` when no token is presented or validation errors (in which case
the route skips the mismatch check, lines 42–68). -/
def verifyPayment (hmac : String → String → String) (secret : Option String)
    (sessionUser : Option String) (db : DB) (req : VerifyRequest) :
    VerifyResponse × DB :=
  if req.orderId == "" || req.paymentId == "" || req.signature == "" then
    (VerifyResponse.missingDetails, db)
  else if (match req.userId, sessionUser with
           | some u, some s => s != u
           | _, _ => false) then
    (VerifyResponse.userMismatch, db)
  else
    match secret with
    | none => (VerifyResponse.configError, db)
    | some key =>
      match findByPaymentId db.payments req.paymentId with
      | some _ =>
        -- duplicate by payment_id: return current balance, add nothing
        let currentCredits : Int :=
          match req.userId with
          | some u => (lookupCredits db.profiles u).getD 0
          | none => 0
        (VerifyResponse.alreadyVerified 0 currentCredits, db)
      | none =>
        match findSuccessByOrderId db.payments req.orderId with
        | some _ => (VerifyResponse.replayAttack, db)
        | none =>
          let expected := hmac key (req.orderId ++ "|" ++ req.paymentId)
          if req.signature != expected then
            match req.userId with
            | some u =>
              (VerifyResponse.invalidSignature,
               { db with payments := db.payments ++
                  [⟨u, req.orderId, req.paymentId, AMOUNT_IN_PAISE, 0,
                    PayStatus.signatureFailed⟩] })
            | none => (VerifyResponse.invalidSignature, db)
          else
            match req.userId with
            | none =>
              -- no user_id: newTotalCredits keeps its initial value
              -- CREDITS_TO_ADD and no table is touched (lines 182, 185, 244)
              (VerifyResponse.verified CREDITS_TO_ADD CREDITS_TO_ADD, db)
            | some u =>
              match lookupCredits db.profiles u with
              | none => (VerifyResponse.profileError, db)
              | some c =>
                let newTotal := c + CREDITS_TO_ADD
                (VerifyResponse.verified CREDITS_TO_ADD newTotal,
                 { payments := db.payments ++
                    [⟨u, req.orderId, req.paymentId, AMOUNT_IN_PAISE,
                      CREDITS_TO_ADD, PayStatus.success⟩],
                   profiles := setCredits db.profiles u newTotal })

/-- Responses of the deduct-credit route (src/unnamed/part_002). -/
inductive DebitResult
  | invalidSession
  | userMismatch
  | fetchFailed
  | insufficient
  | success (credits : Int)
  deriving DecidableEq, Repr

/-- The deduct-credit route handler (src/unnamed/part_002, `POST`) on its
fallback path (lines 90–115): read the balance, reject when it is ≤ 0,
otherwise issue the conditional update `credits = r − 1 WHERE credits > 0`
and report success with `r − 1`, run as one sequential execution.
`sessionUser = none` models a missing or invalid bearer token. -/
def deductCredit (sessionUser : Option String) (reqUserId : Option String)
    (profiles : List (String × Int)) : DebitResult × List (String × Int) :=
  match sessionUser with
  | none => (DebitResult.invalidSession, profiles)
  | some s =>
    match reqUserId with
    | none => (DebitResult.userMismatch, profiles)
    | some u =>
      if u != s then (DebitResult.userMismatch, profiles)
      else
        match lookupCredits profiles u with
        | none => (DebitResult.fetchFailed, profiles)
        | some c =>
          if c ≤ 0 then (DebitResult.insufficient, profiles)
          else
            (DebitResult.success (c - 1), condSetCredits profiles u (c - 1))

/-- Modelled from the spec: the `decrement_credit` Postgres function the
route calls by RPC (src/unnamed/part_002, line 88) is not part of src/;
§5 of the spec describes the intended primitive as the single conditional
atomic operation `UPDATE ... SET credits = credits - 1 WHERE id = ? AND
credits > 0`. -/
def decrement_credit (profiles : List (String × Int)) (uid : String) :
    List (String × Int) :=
  profiles.map (fun p => if p.fst == uid && p.snd > 0 then (p.fst, p.snd - 1) else p)

/-- The deduct-credit route handler on its primary path (lines 85–139):
after the pre-read check it calls the `decrement_credit` RPC, re-reads the
balance (defaulting to `r − 1` when the re-read returns nothing, line 132)
and reports success. -/
def deductCreditRpc (sessionUser : Option String) (reqUserId : Option String)
    (profiles : List (String × Int)) : DebitResult × List (String × Int) :=
  match sessionUser with
  | none => (DebitResult.invalidSession, profiles)
  | some s =>
    match reqUserId with
    | none => (DebitResult.userMismatch, profiles)
    | some u =>
      if u != s then (DebitResult.userMismatch, profiles)
      else
        match lookupCredits profiles u with
        | none => (DebitResult.fetchFailed, profiles)
        | some c =>
          if c ≤ 0 then (DebitResult.insufficient, profiles)
          else
            let profiles2 := decrement_credit profiles u
            (DebitResult.success ((lookupCredits profiles2 u).getD (c - 1)), profiles2)

/-- Per-request state of one in-flight deduct-credit handler: the balance
it has read (if any) and the response it has produced (if any). -/
structure ThreadState where
  readVal : Option Int
  result : Option DebitResult
  deriving DecidableEq, Repr

/-- Initial state of an in-flight deduct-credit handler. -/
def ThreadState.start : ThreadState := ⟨none, none⟩

/-- One atomic database access of a deduct-credit handler on its fallback
path, for an authenticated caller debiting account `uid` (the checks of
steps 1–2 involve no shared state).  The handler suspends at each
database call (spec §5): first the balance read (lines 57–71), then —
after the in-application `credits <= 0` check (line 74) — the
conditional update (lines 95–99), whose response is a success whether or
not a row matched. -/
def threadStep (uid : String) (profiles : List (String × Int)) (t : ThreadState) :
    List (String × Int) × ThreadState :=
  match t.result with
  | some _ => (profiles, t)
  | none =>
    match t.readVal with
    | none =>
      match lookupCredits profiles uid with
      | none => (profiles, { t with result := some DebitResult.fetchFailed })
      | some c => (profiles, { t with readVal := some c })
    | some r =>
      if r ≤ 0 then (profiles, { t with result := some DebitResult.insufficient })
      else
        (condSetCredits profiles uid (r - 1),
         { t with result := some (DebitResult.success (r - 1)) })

/-- Run two concurrent deduct-credit handlers for the same account under a
schedule: `true` steps the first handler, `false` the second. -/
def runTwo (uid : String) (sched : List Bool) (profiles : List (String × Int))
    (t1 t2 : ThreadState) : List (String × Int) × ThreadState × ThreadState :=
  match sched with
  | [] => (profiles, t1, t2)
  | b :: rest =>
    if b then
      let s := threadStep uid profiles t1
      runTwo uid rest s.fst s.snd t2
    else
      let s := threadStep uid profiles t2
      runTwo uid rest s.fst t1 s.snd

/-- Fold a sequence of deduct-credit calls over the ledger, keeping only
the states; each call names a session user, a requested user id, and
which path the handler takes (`true` = RPC, `false` = fallback). -/
def runDebits (calls : List (Bool × Option String × Option String))
    (profiles : List (String × Int)) : List (String × Int) :=
  calls.foldl
    (fun ps call =>
      if call.fst then (deductCreditRpc call.snd.fst call.snd.snd ps).snd
      else (deductCredit call.snd.fst call.snd.snd ps).snd)
    profiles

/-- Constant `FREE_DOWNLOAD_LIMIT` (src/app/page.tsx, line 55). -/
def FREE_DOWNLOAD_LIMIT : Int := 1

/-- Output of the client-side entitlement computation
(src/app/page.tsx, lines 156–172). -/
structure Entitlement where
  totalAllowedDownloads : Int
  hasReachedLimit : Bool
  remainingDownloads : Int
  deriving DecidableEq, Repr

/-- The entitlement computation of src/app/page.tsx, lines 161–172:
authenticated users get 1 download until the post-login free one is used,
then `paidCredits`; unauthenticated users get
`FREE_DOWNLOAD_LIMIT + paidCredits`.  An export is allowed iff
`hasReachedLimit` is false (line 658). -/
def computeEntitlement (isAuthenticated hasUsedPostLoginFree : Bool)
    (paidCredits downloadCount : Int) : Entitlement :=
  if isAuthenticated then
    let total := if !hasUsedPostLoginFree then 1 else paidCredits
    ⟨total, decide (downloadCount ≥ total), max 0 (total - downloadCount)⟩
  else
    let total := FREE_DOWNLOAD_LIMIT + paidCredits
    ⟨total, decide (downloadCount ≥ total), max 0 (total - downloadCount)⟩

/-- Supported currencies of the order-creation route
(src/app/api/create-order/route.ts, line 25). -/
inductive Currency
  | INR
  | USD
  deriving DecidableEq, Repr

/-- Product types of the order-creation route (line 26). -/
inductive Product
  | proPack
  | business
  deriving DecidableEq, Repr

/-- The `PRICING` table of the order-creation route (lines 14–23), in the
smallest currency unit. -/
def orderAmount (c : Currency) (p : Product) : Int :=
  match c, p with
  | Currency.INR, Product.proPack => 19900
  | Currency.INR, Product.business => 99900
  | Currency.USD, Product.proPack => 299
  | Currency.USD, Product.business => 1299

/-- The `credits` note the order-creation route attaches to the provider
order (line 69): `product === "proPack" ? "10" : "50"`. -/
def orderCreditsNote (p : Product) : String :=
  match p with
  | Product.proPack => "10"
  | Product.business => "50"

/-- The product name the order-creation route attaches (lines 70–72). -/
def orderProductName (p : Product) : String :=
  match p with
  | Product.proPack => "Pro Pack - 10 Exports"
  | Product.business => "Business Pack - 50 Exports"

/-- Every code site under src/ that touches the `profiles.credits` /
`users.credits` columns or the `payments` table, from an exhaustive
search of the sources: the two route handlers, the profile helpers of
src/lib/profile.ts, the user helpers of src/lib/user.ts, and the pages
that read them. -/
inductive Component
  | deductCreditRoute
  | verifyPaymentRoute
  | createOrderRoute
  | homePage
  | dashboardLoading
  | paymentsPage
  | createProfile
  | getProfileCredits
  | updateProfileCredits
  | decrementProfileCredits
  | addProfileCredits
  | createOrFetchUser
  | getUserCredits
  | updateUserCredits
  | decrementUserCredits
  | addUserCredits
  deriving DecidableEq, Repr

/-- Whether a component issues an `update` that writes a `credits` column
of an existing row.  True for the two route handlers
(src/unnamed/part_002 line 97 and src/unnamed/part_001 line 210), for
`updateProfileCredits` / `decrementProfileCredits` / `addProfileCredits`
(src/lib/profile.ts lines 142, 175, 209) and for `updateUserCredits` /
`decrementCredits` / `addCredits` (src/lib/user.ts lines 149, 188, 225).
`createProfile` and `createOrFetchUser` only initialize new rows
(upsert with `ignoreDuplicates: true` / insert) and never overwrite an
existing balance. -/
def mutatesCredits (c : Component) : Bool :=
  match c with
  | Component.deductCreditRoute => true
  | Component.verifyPaymentRoute => true
  | Component.updateProfileCredits => true
  | Component.decrementProfileCredits => true
  | Component.addProfileCredits => true
  | Component.updateUserCredits => true
  | Component.decrementUserCredits => true
  | Component.addUserCredits => true
  | _ => false

/-- Whether a component inserts into the `payments` table: only the
verify route does (src/unnamed/part_001, lines 161 and 226);
src/app/payments/loading.tsx only selects from it. -/
def insertsPaymentRecord (c : Component) : Bool :=
  match c with
  | Component.verifyPaymentRoute => true
  | _ => false

/-- Number of call sites each component has inside the repository, from
an exhaustive search: the deduct route is fetched from
src/app/page.tsx line 683 and src/app/dashboard/loading.tsx line 772,
the verify route from page.tsx line 301 and dashboard/loading.tsx
line 487, the order route from page.tsx line 222 and dashboard/loading.tsx
line 412; the six credit-writing helpers of src/lib/profile.ts and
src/lib/user.ts are exported but never called anywhere in src/. -/
def componentCallSites (c : Component) : Nat :=
  match c with
  | Component.deductCreditRoute => 2
  | Component.verifyPaymentRoute => 2
  | Component.createOrderRoute => 2
  | Component.homePage => 0
  | Component.dashboardLoading => 0
  | Component.paymentsPage => 0
  | Component.createProfile => 5
  | Component.getProfileCredits => 0
  | Component.updateProfileCredits => 0
  | Component.decrementProfileCredits => 0
  | Component.addProfileCredits => 0
  | Component.createOrFetchUser => 0
  | Component.getUserCredits => 0
  | Component.updateUserCredits => 0
  | Component.decrementUserCredits => 0
  | Component.addUserCredits => 0

/-- The two services the shared-resource policy names: the Credit Debit
Service (deduct route) and the Payment Verification Service (verify
route). -/
def isCreditService (c : Component) : Bool :=
  match c with
  | Component.deductCreditRoute => true
  | Component.verifyPaymentRoute => true
  | _ => false

/-! ## Theorems -/

/-- All balances of the ledger are non-negative. -/
def NonNegLedger (ps : List (String × Int)) : Prop := ∀ p ∈ ps, 0 ≤ p.snd

instance (ps : List (String × Int)) : Decidable (NonNegLedger ps) := by
  unfold NonNegLedger
  infer_instance

theorem nonneg_condSetCredits (ps : List (String × Int)) (u : String) (v : Int)
    (hv : 0 ≤ v) (h : NonNegLedger ps) : NonNegLedger (condSetCredits ps u v) := by
  intro q hq
  unfold condSetCredits at hq
  rcases List.mem_map.mp hq with ⟨p, hp, hpq⟩
  by_cases hc : (p.fst == u && decide (p.snd > 0)) = true
  · rw [if_pos hc] at hpq
    rw [← hpq]
    exact hv
  · rw [if_neg hc] at hpq
    rw [← hpq]
    exact h p hp

theorem nonneg_decrement_credit (ps : List (String × Int)) (u : String)
    (h : NonNegLedger ps) : NonNegLedger (decrement_credit ps u) := by
  intro q hq
  unfold decrement_credit at hq
  rcases List.mem_map.mp hq with ⟨p, hp, hpq⟩
  by_cases hc : (p.fst == u && decide (p.snd > 0)) = true
  · rw [if_pos hc] at hpq
    rw [← hpq]
    have hpos : 0 < p.snd := by
      have := Bool.and_elim_right hc
      simpa using this
    omega
  · rw [if_neg hc] at hpq
    rw [← hpq]
    exact h p hp

theorem nonneg_deductCredit (su ru : Option String) (ps : List (String × Int))
    (h : NonNegLedger ps) : NonNegLedger (deductCredit su ru ps).snd := by
  unfold deductCredit
  cases su with
  | none => exact h
  | some s =>
    cases ru with
    | none => exact h
    | some u =>
      by_cases hne : (u != s) = true
      · simp only [hne, if_true]
        exact h
      · rw [Bool.not_eq_true] at hne
        simp only [hne, Bool.false_eq_true, if_false]
        cases hl : lookupCredits ps u with
        | none => exact h
        | some c =>
          by_cases hc : c ≤ 0
          · simp only [hc, if_true]
            exact h
          · simp only [hc, if_false]
            exact nonneg_condSetCredits ps u (c - 1) (by omega) h

theorem nonneg_deductCreditRpc (su ru : Option String) (ps : List (String × Int))
    (h : NonNegLedger ps) : NonNegLedger (deductCreditRpc su ru ps).snd := by
  unfold deductCreditRpc
  cases su with
  | none => exact h
  | some s =>
    cases ru with
    | none => exact h
    | some u =>
      by_cases hne : (u != s) = true
      · simp only [hne, if_true]
        exact h
      · rw [Bool.not_eq_true] at hne
        simp only [hne, Bool.false_eq_true, if_false]
        cases hl : lookupCredits ps u with
        | none => exact h
        | some c =>
          by_cases hc : c ≤ 0
          · simp only [hc, if_true]
            exact h
          · simp only [hc, if_false]
            exact nonneg_decrement_credit ps u h

/-- C4: for all sequences of Credit Debit Service calls (either handler
path, any caller identities) on a ledger with non-negative balances, the
balances never go below 0; a debit attempted on an account whose balance
is 0 fails with `insufficient` and leaves the ledger unchanged, on both
the fallback path and the RPC path. -/
theorem c4_nonnegativity (calls : List (Bool × Option String × Option String))
    (ps : List (String × Int)) (h : NonNegLedger ps) :
    NonNegLedger (runDebits calls ps) ∧
    ∀ u, lookupCredits ps u = some 0 →
      deductCredit (some u) (some u) ps = (DebitResult.insufficient, ps) ∧
      deductCreditRpc (some u) (some u) ps = (DebitResult.insufficient, ps) := by
  constructor
  · induction calls generalizing ps with
    | nil => exact h
    | cons call rest ih =>
      unfold runDebits
      simp only [List.foldl_cons]
      by_cases hb : call.fst = true
      · simp only [hb, if_true]
        exact ih _ (nonneg_deductCreditRpc call.snd.fst call.snd.snd ps h)
      · rw [Bool.not_eq_true] at hb
        simp only [hb, Bool.false_eq_true, if_false]
        exact ih _ (nonneg_deductCredit call.snd.fst call.snd.snd ps h)
  · intro u hu
    constructor
    · unfold deductCredit
      simp [hu]
    · unfold deductCreditRpc
      simp [hu]

/-- Closed instance of `c4_nonnegativity`: one fallback debit on an
account holding 0 credits keeps the ledger non-negative, and the debit
itself fails with `insufficient`, leaving the ledger unchanged. -/
theorem c4_witness :
    NonNegLedger (runDebits [(false, some "u", some "u")] [("u", 0)]) ∧
    deductCredit (some "u") (some "u") [("u", 0)] =
      (DebitResult.insufficient, [("u", 0)]) := by
  have h := c4_nonnegativity [(false, some "u", some "u")] [("u", 0)] (by decide)
  exact ⟨h.1, (h.2 "u" (by decide)).1⟩

/-- C1: with a single credit on account `u`, the interleaving
read₁ · read₂ · update₁ · update₂ of two concurrent fallback-path debit
handlers makes BOTH handlers answer success (the second conditional
update matches no row, which the handler does not detect), with a final
balance of 0 — not the one success and one `InsufficientCredits` the
claim requires; under the fully sequential schedule the second call does
fail with `insufficient`.  The fallback decrement writes the value
`r − 1` computed from an earlier application-side read, i.e. it is a
read-then-write pair, not a single atomic decrement. -/
theorem c1_debit_race_both_succeed :
    runTwo "u" [true, false, true, false] [("u", 1)]
        ThreadState.start ThreadState.start =
      ([("u", 0)],
       ⟨some 1, some (DebitResult.success 0)⟩,
       ⟨some 1, some (DebitResult.success 0)⟩) ∧
    runTwo "u" [true, true, false, false] [("u", 1)]
        ThreadState.start ThreadState.start =
      ([("u", 0)],
       ⟨some 1, some (DebitResult.success 0)⟩,
       ⟨some 0, some DebitResult.insufficient⟩) := by
  constructor <;> rfl

/-- C5: the order-creation route advertises the business pack as 50
credits (and charges its higher price), but a verification of a paid
business order — the request carries only ids and signature, never the
product — grants the flat `CREDITS_TO_ADD = 10` and records
`credits_added = 10` and `amount = 19900`, as evaluated here on an
account with 0 credits; 10 ≠ 50. -/
theorem c5_business_pack_credits_mismatch :
    orderCreditsNote Product.business = "50" ∧
    orderProductName Product.business = "Business Pack - 50 Exports" ∧
    orderAmount Currency.INR Product.business = 99900 ∧
    verifyPayment (fun k m => k ++ m) (some "k") none ⟨[], [("alice", 0)]⟩
        ⟨"oB", "pB", "koB|pB", some "alice"⟩ =
      (VerifyResponse.verified 10 10,
       ⟨[⟨"alice", "oB", "pB", 19900, 10, PayStatus.success⟩], [("alice", 10)]⟩) ∧
    (10 : Int) ≠ 50 := by
  refine ⟨rfl, rfl, rfl, ?_, by decide⟩
  rfl

/-- C9 counterexample: an unauthenticated principal with
`anonymousDownloadCount = 1` and `paidCredits = 5` is still allowed
(`hasReachedLimit = false`) with 5 downloads remaining, while the claim
(`allowed = count < 1`, `remaining = max 0 (1 − count)`, regardless of
any other state) predicts allowed = false and remaining = 0. -/
theorem c9_counterexample :
    (computeEntitlement false false 5 1).hasReachedLimit = false ∧
    (computeEntitlement false false 5 1).remainingDownloads = 5 ∧
    ¬((1 : Int) < 1) ∧ max (0 : Int) (1 - 1) = 0 := by
  refine ⟨rfl, rfl, by decide, by decide⟩

/-- C9 amended: for unauthenticated principals the computation uses
`FREE_DOWNLOAD_LIMIT + paidCredits = 1 + paidCredits` as the allowance:
`allowed = anonymousDownloadCount < 1 + paidCredits` and
`remaining = max 0 (1 + paidCredits − anonymousDownloadCount)`; with
`paidCredits = 0` this yields the claimed scenario values
(count 0 → allowed, 1 remaining; count 1 → not allowed, 0 remaining). -/
theorem c9_entitlement_formula (hasUsed : Bool) (paid count : Int) :
    computeEntitlement false hasUsed paid count =
      ⟨1 + paid, decide (count ≥ 1 + paid), max 0 (1 + paid - count)⟩ ∧
    ((computeEntitlement false hasUsed paid count).hasReachedLimit = false ↔
      count < 1 + paid) ∧
    computeEntitlement false hasUsed 0 0 = ⟨1, false, 1⟩ ∧
    computeEntitlement false hasUsed 0 1 = ⟨1, true, 0⟩ := by
  refine ⟨rfl, ?_, rfl, rfl⟩
  simp [computeEntitlement, FREE_DOWNLOAD_LIMIT]

theorem lookupCredits_setCredits (ps : List (String × Int)) (u : String) (v c : Int)
    (h : lookupCredits ps u = some c) :
    lookupCredits (setCredits ps u v) u = some v := by
  induction ps with
  | nil => simp [lookupCredits] at h
  | cons a ps ih =>
    unfold lookupCredits at h ⊢
    unfold setCredits
    by_cases hp : (a.fst == u) = true
    · simp only [List.map_cons]
      rw [if_pos hp]
      simp [List.find?_cons, hp]
    · rw [Bool.not_eq_true] at hp
      simp only [List.map_cons]
      rw [if_neg (by simp [hp])]
      simp only [List.find?_cons, hp] at h ⊢
      exact ih h

theorem findByPaymentId_append_none (l1 l2 : List PaymentRow) (pid : String)
    (h : findByPaymentId l1 pid = none) :
    findByPaymentId (l1 ++ l2) pid = findByPaymentId l2 pid := by
  unfold findByPaymentId at h ⊢
  rw [List.find?_append, h]
  rfl

theorem findByPaymentId_append_self (l : List PaymentRow) (row : PaymentRow)
    (h : findByPaymentId l row.paymentId = none) :
    findByPaymentId (l ++ [row]) row.paymentId = some row := by
  rw [findByPaymentId_append_none l [row] row.paymentId h]
  unfold findByPaymentId
  rw [List.find?_cons_of_pos]
  simp

/-- Evaluation of the verify route on its duplicate-by-payment path: as
soon as some row with the request's `paymentId` exists (whatever its
status and whatever the submitted signature), the route answers success
with `duplicate = true`, `credits_added = 0` and the account's current
balance, and changes nothing. -/
theorem verify_eval_duplicate (hmac : String → String → String)
    (key oid pid sig : String) (uopt : Option String) (db : DB) (row : PaymentRow)
    (hfound : findByPaymentId db.payments pid = some row)
    (ho : oid ≠ "") (hp : pid ≠ "") (hs : sig ≠ "") :
    verifyPayment hmac (some key) none db ⟨oid, pid, sig, uopt⟩ =
      (VerifyResponse.alreadyVerified 0
        (match uopt with
         | some u => (lookupCredits db.profiles u).getD 0
         | none => 0), db) := by
  have hguard : (oid == "" || pid == "" || sig == "") = false := by
    simp [ho, hp, hs]
  cases uopt with
  | none =>
    unfold verifyPayment
    simp only [hguard, Bool.false_eq_true, if_false, hfound]
  | some u =>
    unfold verifyPayment
    simp only [hguard, Bool.false_eq_true, if_false, hfound]

/-- Evaluation of the verify route on its first-valid-sight path with an
account: the ledger entry is raised by `CREDITS_TO_ADD` and a success row
is appended. -/
theorem verify_eval_credit (hmac : String → String → String)
    (key oid pid u : String) (db : DB) (c : Int)
    (h1 : findByPaymentId db.payments pid = none)
    (h2 : findSuccessByOrderId db.payments oid = none)
    (h3 : lookupCredits db.profiles u = some c)
    (ho : oid ≠ "") (hp : pid ≠ "")
    (hs : hmac key (oid ++ "|" ++ pid) ≠ "") :
    verifyPayment hmac (some key) none db
        ⟨oid, pid, hmac key (oid ++ "|" ++ pid), some u⟩ =
      (VerifyResponse.verified CREDITS_TO_ADD (c + CREDITS_TO_ADD),
       ⟨db.payments ++
          [⟨u, oid, pid, AMOUNT_IN_PAISE, CREDITS_TO_ADD, PayStatus.success⟩],
        setCredits db.profiles u (c + CREDITS_TO_ADD)⟩) := by
  have hguard :
      (oid == "" || pid == "" || hmac key (oid ++ "|" ++ pid) == "") = false := by
    simp [ho, hp, hs]
  unfold verifyPayment
  simp only [hguard, Bool.false_eq_true, if_false, h1, h2, bne_self_eq_false, h3]

/-- C2: a first-seen valid `(orderId, paymentId, signature)` triple for an
existing account is credited exactly once; resubmitting the identical
triple answers success with `duplicate = true`, `credits_added = 0` and
the unchanged balance `c + CREDITS_TO_ADD`, leaving the database exactly
as after the first call. -/
theorem c2_verification_idempotent (hmac : String → String → String)
    (key oid pid u : String) (db : DB) (c : Int)
    (h1 : findByPaymentId db.payments pid = none)
    (h2 : findSuccessByOrderId db.payments oid = none)
    (h3 : lookupCredits db.profiles u = some c)
    (ho : oid ≠ "") (hp : pid ≠ "")
    (hs : hmac key (oid ++ "|" ++ pid) ≠ "") :
    (verifyPayment hmac (some key) none db
        ⟨oid, pid, hmac key (oid ++ "|" ++ pid), some u⟩).fst =
      VerifyResponse.verified CREDITS_TO_ADD (c + CREDITS_TO_ADD) ∧
    lookupCredits (verifyPayment hmac (some key) none db
        ⟨oid, pid, hmac key (oid ++ "|" ++ pid), some u⟩).snd.profiles u =
      some (c + CREDITS_TO_ADD) ∧
    verifyPayment hmac (some key) none
        (verifyPayment hmac (some key) none db
          ⟨oid, pid, hmac key (oid ++ "|" ++ pid), some u⟩).snd
        ⟨oid, pid, hmac key (oid ++ "|" ++ pid), some u⟩ =
      (VerifyResponse.alreadyVerified 0 (c + CREDITS_TO_ADD),
       (verifyPayment hmac (some key) none db
          ⟨oid, pid, hmac key (oid ++ "|" ++ pid), some u⟩).snd) := by
  have he := verify_eval_credit hmac key oid pid u db c h1 h2 h3 ho hp hs
  have hlk : lookupCredits (setCredits db.profiles u (c + CREDITS_TO_ADD)) u =
      some (c + CREDITS_TO_ADD) :=
    lookupCredits_setCredits db.profiles u (c + CREDITS_TO_ADD) c h3
  refine ⟨by rw [he], by rw [he]; exact hlk, ?_⟩
  rw [he]
  have hfound := findByPaymentId_append_self db.payments
    ⟨u, oid, pid, AMOUNT_IN_PAISE, CREDITS_TO_ADD, PayStatus.success⟩ h1
  have hd := verify_eval_duplicate hmac key oid pid
    (hmac key (oid ++ "|" ++ pid)) (some u)
    ⟨db.payments ++
      [⟨u, oid, pid, AMOUNT_IN_PAISE, CREDITS_TO_ADD, PayStatus.success⟩],
     setCredits db.profiles u (c + CREDITS_TO_ADD)⟩
    ⟨u, oid, pid, AMOUNT_IN_PAISE, CREDITS_TO_ADD, PayStatus.success⟩
    hfound ho hp hs
  rw [hd]
  simp [hlk]

/-- Closed instance of `c2_verification_idempotent`: account "alice" with
5 credits, fresh ids, valid signature — first call grants 10 for a total
of 15, the resubmission is flagged duplicate with total 15 and no second
grant. -/
theorem c2_witness :
    (verifyPayment (fun k m => k ++ m) (some "k") none ⟨[], [("alice", 5)]⟩
        ⟨"o1", "p1", (fun k m => k ++ m) "k" ("o1" ++ "|" ++ "p1"),
         some "alice"⟩).fst =
      VerifyResponse.verified CREDITS_TO_ADD (5 + CREDITS_TO_ADD) ∧
    lookupCredits (verifyPayment (fun k m => k ++ m) (some "k") none
        ⟨[], [("alice", 5)]⟩
        ⟨"o1", "p1", (fun k m => k ++ m) "k" ("o1" ++ "|" ++ "p1"),
         some "alice"⟩).snd.profiles "alice" = some (5 + CREDITS_TO_ADD) ∧
    verifyPayment (fun k m => k ++ m) (some "k") none
        (verifyPayment (fun k m => k ++ m) (some "k") none ⟨[], [("alice", 5)]⟩
          ⟨"o1", "p1", (fun k m => k ++ m) "k" ("o1" ++ "|" ++ "p1"),
           some "alice"⟩).snd
        ⟨"o1", "p1", (fun k m => k ++ m) "k" ("o1" ++ "|" ++ "p1"),
         some "alice"⟩ =
      (VerifyResponse.alreadyVerified 0 (5 + CREDITS_TO_ADD),
       (verifyPayment (fun k m => k ++ m) (some "k") none ⟨[], [("alice", 5)]⟩
          ⟨"o1", "p1", (fun k m => k ++ m) "k" ("o1" ++ "|" ++ "p1"),
           some "alice"⟩).snd) :=
  c2_verification_idempotent (fun k m => k ++ m) "k" "o1" "p1" "alice"
    ⟨[], [("alice", 5)]⟩ 5 rfl rfl rfl (by decide) (by decide) (by decide)

/-- C3 counterexample: order "o1" already holds a success record under
paymentId "pA", and the different paymentId "pB" also already appears
(as a signature_failed row from an earlier attempt).  Resubmitting "pB"
for "o1" with a VALID signature for "pB" is answered by the
duplicate-by-payment check — success with `duplicate = true` — and not
with `ReplayAttack` as the claim requires for any different paymentId. -/
theorem c3_counterexample :
    (findSuccessByOrderId
        [⟨"alice", "o1", "pB", 19900, 0, PayStatus.signatureFailed⟩,
         ⟨"alice", "o1", "pA", 19900, 10, PayStatus.success⟩] "o1").map
        PaymentRow.paymentId = some "pA" ∧
    "pA" ≠ "pB" ∧
    verifyPayment (fun k m => k ++ m) (some "k") none
        ⟨[⟨"alice", "o1", "pB", 19900, 0, PayStatus.signatureFailed⟩,
          ⟨"alice", "o1", "pA", 19900, 10, PayStatus.success⟩],
         [("alice", 10)]⟩
        ⟨"o1", "pB", (fun k m => k ++ m) "k" ("o1" ++ "|" ++ "pB"),
         some "alice"⟩ =
      (VerifyResponse.alreadyVerified 0 10,
       ⟨[⟨"alice", "o1", "pB", 19900, 0, PayStatus.signatureFailed⟩,
         ⟨"alice", "o1", "pA", 19900, 10, PayStatus.success⟩],
        [("alice", 10)]⟩) ∧
    VerifyResponse.alreadyVerified 0 10 ≠ VerifyResponse.replayAttack := by
  refine ⟨by decide, by decide, by decide, by decide⟩

/-- C3 amended: when the order already has a success record and the
request's different paymentId is NOT yet present in the payment store,
the request is rejected with `ReplayAttack` — whatever the submitted
signature and whether or not an account is attached — and the database
(hence every balance) is unchanged. -/
theorem c3_replay_rejected_when_payment_unseen (hmac : String → String → String)
    (key oid pidB sig : String) (uopt : Option String) (db : DB)
    (row : PaymentRow)
    (hsucc : findSuccessByOrderId db.payments oid = some row)
    (hfresh : findByPaymentId db.payments pidB = none)
    (ho : oid ≠ "") (hp : pidB ≠ "") (hs : sig ≠ "") :
    verifyPayment hmac (some key) none db ⟨oid, pidB, sig, uopt⟩ =
      (VerifyResponse.replayAttack, db) := by
  have hguard : (oid == "" || pidB == "" || sig == "") = false := by
    simp [ho, hp, hs]
  cases uopt with
  | none =>
    unfold verifyPayment
    simp only [hguard, Bool.false_eq_true, if_false, hfresh, hsucc]
  | some u =>
    unfold verifyPayment
    simp only [hguard, Bool.false_eq_true, if_false, hfresh, hsucc]

/-- Closed instance of `c3_replay_rejected_when_payment_unseen`: order
"o1" paid under "pA"; a fresh "pB" with a valid signature for it is
rejected with `ReplayAttack` and nothing changes. -/
theorem c3_witness :
    verifyPayment (fun k m => k ++ m) (some "k") none
        ⟨[⟨"alice", "o1", "pA", 19900, 10, PayStatus.success⟩], [("alice", 10)]⟩
        ⟨"o1", "pB", (fun k m => k ++ m) "k" ("o1" ++ "|" ++ "pB"),
         some "alice"⟩ =
      (VerifyResponse.replayAttack,
       ⟨[⟨"alice", "o1", "pA", 19900, 10, PayStatus.success⟩],
        [("alice", 10)]⟩) :=
  c3_replay_rejected_when_payment_unseen (fun k m => k ++ m) "k" "o1" "pB"
    ((fun k m => k ++ m) "k" ("o1" ++ "|" ++ "pB")) (some "alice")
    ⟨[⟨"alice", "o1", "pA", 19900, 10, PayStatus.success⟩], [("alice", 10)]⟩
    ⟨"alice", "o1", "pA", 19900, 10, PayStatus.success⟩
    rfl rfl (by decide) (by decide) (by decide)

/-- C6 counterexample: a verification with no accountId and a tampered
same-length signature is rejected with `InvalidSignature` but writes NO
audit record (the insert of src/unnamed/part_001 line 161 is guarded by
`if (user_id)`), contradicting "writes an audit PaymentRecord" for every
such request. -/
theorem c6_counterexample :
    "xo1|p1" ≠ (fun k m => k ++ m) "k" ("o1" ++ "|" ++ "p1") ∧
    String.length "xo1|p1" = String.length "ko1|p1" ∧
    verifyPayment (fun k m => k ++ m) (some "k") none ⟨[], [("alice", 5)]⟩
        ⟨"o1", "p1", "xo1|p1", none⟩ =
      (VerifyResponse.invalidSignature, ⟨[], [("alice", 5)]⟩) ∧
    (verifyPayment (fun k m => k ++ m) (some "k") none ⟨[], [("alice", 5)]⟩
        ⟨"o1", "p1", "xo1|p1", none⟩).snd.payments = [] := by
  refine ⟨by decide, by decide, by decide, by decide⟩

/-- C6 amended: a first-seen verification (fresh paymentId, order without
a prior success) whose signature differs from the expected keyed hash is
rejected with `InvalidSignature` and the ledger is untouched; the audit
row with `status = signature_failed`, `credits_added = 0` is appended
exactly when an accountId accompanies the request, and no row is written
otherwise. -/
theorem c6_invalid_signature_audit (hmac : String → String → String)
    (key oid pid sig : String) (uopt : Option String) (db : DB)
    (h1 : findByPaymentId db.payments pid = none)
    (h2 : findSuccessByOrderId db.payments oid = none)
    (hbad : sig ≠ hmac key (oid ++ "|" ++ pid))
    (ho : oid ≠ "") (hp : pid ≠ "") (hs : sig ≠ "") :
    verifyPayment hmac (some key) none db ⟨oid, pid, sig, uopt⟩ =
      (VerifyResponse.invalidSignature,
       ⟨db.payments ++
          (match uopt with
           | some u => [⟨u, oid, pid, AMOUNT_IN_PAISE, 0, PayStatus.signatureFailed⟩]
           | none => []),
        db.profiles⟩) := by
  have hguard : (oid == "" || pid == "" || sig == "") = false := by
    simp [ho, hp, hs]
  have hbne : (sig != hmac key (oid ++ "|" ++ pid)) = true := by
    simp [hbad]
  cases uopt with
  | none =>
    unfold verifyPayment
    simp only [hguard, Bool.false_eq_true, if_false, h1, h2, hbne, if_true]
    simp
  | some u =>
    unfold verifyPayment
    simp only [hguard, Bool.false_eq_true, if_false, h1, h2, hbne, if_true]

/-- Closed instance of `c6_invalid_signature_audit`: with account "alice"
attached, the tampered signature is rejected and exactly the audit row is
appended, credits staying at 5. -/
theorem c6_witness :
    verifyPayment (fun k m => k ++ m) (some "k") none ⟨[], [("alice", 5)]⟩
        ⟨"o1", "p1", "xo1|p1", some "alice"⟩ =
      (VerifyResponse.invalidSignature,
       ⟨[] ++ [⟨"alice", "o1", "p1", AMOUNT_IN_PAISE, 0,
               PayStatus.signatureFailed⟩],
        [("alice", 5)]⟩) :=
  c6_invalid_signature_audit (fun k m => k ++ m) "k" "o1" "p1" "xo1|p1"
    (some "alice") ⟨[], [("alice", 5)]⟩ rfl rfl (by decide) (by decide)
    (by decide) (by decide)

/-- C7: with no accountId, a first-seen verification with a valid
signature answers success with `credits_added = 10` and
`total_credits = 10` while changing no table at all; because nothing was
recorded, resubmitting the identical request is not flagged as a
duplicate and again answers success with `credits_added = 10`. -/
theorem c7_anonymous_verification_no_persistence (hmac : String → String → String)
    (key oid pid : String) (db : DB)
    (h1 : findByPaymentId db.payments pid = none)
    (h2 : findSuccessByOrderId db.payments oid = none)
    (ho : oid ≠ "") (hp : pid ≠ "")
    (hs : hmac key (oid ++ "|" ++ pid) ≠ "") :
    verifyPayment hmac (some key) none db
        ⟨oid, pid, hmac key (oid ++ "|" ++ pid), none⟩ =
      (VerifyResponse.verified CREDITS_TO_ADD CREDITS_TO_ADD, db) ∧
    verifyPayment hmac (some key) none
        (verifyPayment hmac (some key) none db
          ⟨oid, pid, hmac key (oid ++ "|" ++ pid), none⟩).snd
        ⟨oid, pid, hmac key (oid ++ "|" ++ pid), none⟩ =
      (VerifyResponse.verified CREDITS_TO_ADD CREDITS_TO_ADD, db) := by
  have hguard :
      (oid == "" || pid == "" || hmac key (oid ++ "|" ++ pid) == "") = false := by
    simp [ho, hp, hs]
  have haux : verifyPayment hmac (some key) none db
      ⟨oid, pid, hmac key (oid ++ "|" ++ pid), none⟩ =
      (VerifyResponse.verified CREDITS_TO_ADD CREDITS_TO_ADD, db) := by
    unfold verifyPayment
    simp only [hguard, Bool.false_eq_true, if_false, h1, h2, bne_self_eq_false]
  refine ⟨haux, ?_⟩
  rw [haux]
  exact haux

/-- Closed instance of `c7_anonymous_verification_no_persistence` on an
empty payment store. -/
theorem c7_witness :
    verifyPayment (fun k m => k ++ m) (some "k") none ⟨[], [("alice", 5)]⟩
        ⟨"o1", "p1", (fun k m => k ++ m) "k" ("o1" ++ "|" ++ "p1"), none⟩ =
      (VerifyResponse.verified CREDITS_TO_ADD CREDITS_TO_ADD,
       ⟨[], [("alice", 5)]⟩) ∧
    verifyPayment (fun k m => k ++ m) (some "k") none
        (verifyPayment (fun k m => k ++ m) (some "k") none ⟨[], [("alice", 5)]⟩
          ⟨"o1", "p1", (fun k m => k ++ m) "k" ("o1" ++ "|" ++ "p1"),
           none⟩).snd
        ⟨"o1", "p1", (fun k m => k ++ m) "k" ("o1" ++ "|" ++ "p1"), none⟩ =
      (VerifyResponse.verified CREDITS_TO_ADD CREDITS_TO_ADD,
       ⟨[], [("alice", 5)]⟩) :=
  c7_anonymous_verification_no_persistence (fun k m => k ++ m) "k" "o1" "p1"
    ⟨[], [("alice", 5)]⟩ rfl rfl (by decide) (by decide) (by decide)

/-- C8: whenever some row with the request's paymentId exists (whatever
its status), the route answers success with `duplicate = true` and the
account's current balance without consulting the signature: two requests
differing only in their (arbitrary, possibly invalid) signatures receive
the identical success response, and nothing changes. -/
theorem c8_duplicate_skips_signature (hmac : String → String → String)
    (key oid pid sig1 sig2 : String) (uopt : Option String) (db : DB)
    (row : PaymentRow)
    (hfound : findByPaymentId db.payments pid = some row)
    (ho : oid ≠ "") (hp : pid ≠ "") (hs1 : sig1 ≠ "") (hs2 : sig2 ≠ "") :
    verifyPayment hmac (some key) none db ⟨oid, pid, sig1, uopt⟩ =
      (VerifyResponse.alreadyVerified 0
        (match uopt with
         | some u => (lookupCredits db.profiles u).getD 0
         | none => 0), db) ∧
    verifyPayment hmac (some key) none db ⟨oid, pid, sig2, uopt⟩ =
      (VerifyResponse.alreadyVerified 0
        (match uopt with
         | some u => (lookupCredits db.profiles u).getD 0
         | none => 0), db) :=
  ⟨verify_eval_duplicate hmac key oid pid sig1 uopt db row hfound ho hp hs1,
   verify_eval_duplicate hmac key oid pid sig2 uopt db row hfound ho hp hs2⟩

/-- Closed instance of `c8_duplicate_skips_signature`: paymentId "p1" is
recorded as signature_failed; both the valid signature and the arbitrary
string "garbage" receive the same duplicate-success answer with the
current balance 5. -/
theorem c8_witness :
    verifyPayment (fun k m => k ++ m) (some "k") none
        ⟨[⟨"alice", "o1", "p1", 19900, 0, PayStatus.signatureFailed⟩],
         [("alice", 5)]⟩
        ⟨"o1", "p1", (fun k m => k ++ m) "k" ("o1" ++ "|" ++ "p1"),
         some "alice"⟩ =
      (VerifyResponse.alreadyVerified 0
        ((lookupCredits [("alice", 5)] "alice").getD 0),
       ⟨[⟨"alice", "o1", "p1", 19900, 0, PayStatus.signatureFailed⟩],
        [("alice", 5)]⟩) ∧
    verifyPayment (fun k m => k ++ m) (some "k") none
        ⟨[⟨"alice", "o1", "p1", 19900, 0, PayStatus.signatureFailed⟩],
         [("alice", 5)]⟩
        ⟨"o1", "p1", "garbage", some "alice"⟩ =
      (VerifyResponse.alreadyVerified 0
        ((lookupCredits [("alice", 5)] "alice").getD 0),
       ⟨[⟨"alice", "o1", "p1", 19900, 0, PayStatus.signatureFailed⟩],
        [("alice", 5)]⟩) :=
  c8_duplicate_skips_signature (fun k m => k ++ m) "k" "o1" "p1"
    ((fun k m => k ++ m) "k" ("o1" ++ "|" ++ "p1")) "garbage" (some "alice")
    ⟨[⟨"alice", "o1", "p1", 19900, 0, PayStatus.signatureFailed⟩],
     [("alice", 5)]⟩
    ⟨"alice", "o1", "p1", 19900, 0, PayStatus.signatureFailed⟩
    rfl (by decide) (by decide) (by decide) (by decide)

/-- C10 counterexample: `updateProfileCredits` (src/lib/profile.ts,
lines 135–149) writes the `credits` column of an existing profile row
yet is neither the Credit Debit Service nor the Payment Verification
Service, refuting "no other component of the program writes credits". -/
theorem c10_counterexample :
    mutatesCredits Component.updateProfileCredits = true ∧
    isCreditService Component.updateProfileCredits = false := ⟨rfl, rfl⟩

/-- C10 amended: every component that writes a `credits` column AND has
at least one call site inside the repository is one of the two services;
the six credit-writing helpers of src/lib/profile.ts and src/lib/user.ts
are exported but never called.  Inserting into the `payments` table is
done only by the Payment Verification Service, unconditionally. -/
theorem c10_invoked_writers_are_services :
    (∀ c : Component, mutatesCredits c = true → 0 < componentCallSites c →
      isCreditService c = true) ∧
    (∀ c : Component, insertsPaymentRecord c = true →
      c = Component.verifyPaymentRoute) := by
  constructor
  · intro c hw hcall
    cases c <;> first
      | rfl
      | exact absurd hw (by decide)
      | exact absurd hcall (by decide)
  · intro c hi
    cases c <;> first
      | rfl
      | exact absurd hi (by decide)

/-- Closed instance of `c10_invoked_writers_are_services` at the deduct
route, which writes credits and is fetched from src/app/page.tsx. -/
theorem c10_witness : isCreditService Component.deductCreditRoute = true :=
  c10_invoked_writers_are_services.1 Component.deductCreditRoute rfl (by decide)

end B2V
